import Mathlib

/-!
Verification of the `fivek_crawler` repository (file `fivek_crawler.py`).

The Python program is shallowly embedded as executable Lean definitions:

* strings are `List Char`;
* the regular expression `img/tiff16_[<experts>]/\S*.tif` from
  `FivekCrawler._get_expert_images_url` is embedded as an explicit
  leftmost/greedy scanner (`findMatches`), restricted to ASCII whitespace
  (the inputs of interest are ASCII);
* Python's `int(...)` on a string slice is embedded as `pyInt`
  (optional surrounding whitespace, optional sign, ASCII digits with
  single underscores between digits);
* network effects are abstracted by oracles: the listing request outcome
  is an `HttpOutcome`, and each download attempt's outcome is given by a
  behaviour function `Nat → DlTask → Nat → AttemptOutcome`
  (phase number, task, attempt number);
* the thread pool is embedded sequentially: within a phase every
  submitted task runs to completion before the failure list is read
  again.  This matches the source because each phase's
  `ThreadPoolExecutor` context manager joins all submitted work on exit,
  and the submission loop finishes before worker appends are observed;
* the shared list `self.incomplete_images` is threaded explicitly
  through the orchestrator state (`CleanState`), including the aliasing
  produced by `remains = self.incomplete_images` at line 214: after the
  first cleanup iteration `remains` and `incomplete_images` are the same
  object, which the state transition `cleanupStep` reflects by updating
  both fields together;
* the bulk submission loop carries a type error: the generator at line
  140 yields `url.group()`, a plain `str`, and line 196 applies
  `.group()` to that string again.  Line 195 (`url.replace`, a `str`
  method) still runs, but evaluating `url.group()` raises
  `AttributeError` before `saver.submit` is ever called, so the first
  enumerated URL aborts the run with zero submissions.  The embedding
  keeps this crash (`BulkResult.crashedAttr` / `RunOutcome.crashAttr`):
  in every execution the submitted task list is empty, `download_image`
  is never invoked from `main`, and the cleanup loop only ever starts
  from an empty failure list.

Known deliberate modelling restrictions (each noted at its definition):
the empty expert list (for which Python's `re` module rejects the
pattern `[]` outright) is treated as matching nothing, and filesystem
errors other than `FileExistsError` on the leaf directory are outside
the model.
-/

set_option maxRecDepth 16000

/-- ASCII whitespace, the characters matched by `\s` (and excluded by
`\S`) in Python's `re` for ASCII input: space, tab, newline, carriage
return, vertical tab, form feed. -/
def isPySpace (c : Char) : Bool :=
  c == ' ' || c == '\t' || c == '\n' || c == '\r' ||
  c == Char.ofNat 11 || c == Char.ofNat 12

/-- `startsWith s p` holds when `p` is an initial segment of `s`. -/
def startsWith : List Char → List Char → Bool
  | _, [] => true
  | [], _ :: _ => false
  | c :: cs, p :: ps => c == p && startsWith cs ps

/-- Maximum of a list of naturals, `none` on the empty list. -/
def listMaxN : List Nat → Option Nat
  | [] => none
  | n :: rest =>
    match listMaxN rest with
    | none => some n
    | some m => some (max n m)

/-- The literal head `img/tiff16_` of the pattern at line 134 of the
source (11 characters, before the expert character class). -/
def patHead : List Char := "img/tiff16_".toList

/-- After the greedy `\S*` has consumed `k` characters of `t`, the
remaining pattern `.tif` must match: one arbitrary non-newline
character (the unescaped `.`) followed by the literal `tif`. -/
def dotTifAt (t : List Char) (k : Nat) : Bool :=
  match t.drop k with
  | c :: 't' :: 'i' :: 'f' :: _ => c != '\n'
  | _ => false

/-- `k` is a feasible length for the `\S*` part: the first `k`
characters of `t` are non-whitespace and `.tif` matches right after. -/
def validK (t : List Char) (k : Nat) : Bool :=
  ((t.take k).all (fun c => !(isPySpace c))) && dotTifAt t k

/-- Greedy choice for `\S*`: the largest feasible length (backtracking
from the longest extension, as Python's engine does for `\S*.tif`). -/
def bestK (t : List Char) : Option Nat :=
  listMaxN ((List.range (t.length + 1)).filter (validK t))

/-- Length of the regex match of `img/tiff16_[E]/\S*.tif` anchored at
the start of `s`, or `none` if there is no match at this position.
`E` is the expert character class (`expert_list` joined, line 132).
Note: with `E = []` Python's `re` rejects the pattern `[...]`; the
model instead matches nothing, and theorems that depend on the bulk
pipeline carry a nonempty-expert hypothesis. -/
def matchLenAt (E : List Char) (s : List Char) : Option Nat :=
  if startsWith s patHead then
    match s.drop 11 with
    | e :: sl :: _ =>
      if sl = '/' ∧ E.contains e then
        match bestK (s.drop 13) with
        | some k => some (13 + (k + 4))
        | none => none
      else none
    | _ => none
  else none

/-- Non-overlapping leftmost scan, as `re.finditer`: try to match at the
current position; on success emit the match and resume after it, on
failure advance one character.  `fuel` bounds the recursion; it is
instantiated with `s.length`, which suffices because every step consumes
at least one character. -/
def scanMatches (E : List Char) : Nat → List Char → List (List Char)
  | 0, _ => []
  | fuel + 1, s =>
    match matchLenAt E s with
    | some n => s.take n :: scanMatches E fuel (s.drop n)
    | none =>
      match s with
      | [] => []
      | _ :: tl => scanMatches E fuel tl

/-- All matches of `img/tiff16_[E]/\S*.tif` in `s`, in order of
appearance (line 133-136 of the source). -/
def findMatches (E : List Char) (s : List Char) : List (List Char) :=
  scanMatches E s.length s

/-- Strip leading and trailing ASCII whitespace, as Python's `int`
does before parsing. -/
def stripWs (s : List Char) : List Char :=
  ((s.dropWhile isPySpace).reverse.dropWhile isPySpace).reverse

/-- Digit run with optional single underscores between digits, the tail
of Python's integer-literal grammar.  Entered after the first digit has
been consumed into `acc`. -/
def pyDigitsAux : Nat → List Char → Option Nat
  | acc, [] => some acc
  | _, ['_'] => none
  | acc, '_' :: c :: rest =>
    if c.isDigit then pyDigitsAux (10 * acc + (c.toNat - 48)) rest else none
  | acc, c :: rest =>
    if c.isDigit then pyDigitsAux (10 * acc + (c.toNat - 48)) rest else none

/-- Unsigned part of Python's `int(...)`: at least one digit, with
single underscores allowed between digits (no leading or trailing
underscore). -/
def pyUnsignedVal : List Char → Option Nat
  | [] => none
  | c :: rest =>
    if c.isDigit then pyDigitsAux (c.toNat - 48) rest else none

/-- Python's `int(str)` restricted to ASCII: optional surrounding
whitespace, optional `+`/`-` sign, then an unsigned digit run.
Returns `none` where Python raises `ValueError`. -/
def pyInt (s : List Char) : Option Int :=
  match stripWs s with
  | '+' :: rest => (pyUnsignedVal rest).map (fun n => (n : Int))
  | '-' :: rest => (pyUnsignedVal rest).map (fun n => -(n : Int))
  | t => (pyUnsignedVal t).map (fun n => (n : Int))

/-- `url.split("/")[-1]`: the substring after the last `/` (the whole
string if there is no `/`). -/
def lastComponent (s : List Char) : List Char :=
  (s.reverse.takeWhile (fun c => c != '/')).reverse

/-- Line 138 of the source:
`int(url.group().split("/")[-1][1:5])`.  The filename's characters at
positions 1 through 4 are sliced (Python slicing clamps, so a short
name gives a short slice) and fed to `int`; `none` models the
`ValueError` Python raises when the slice is not an integer literal. -/
def parseUrlIndex (m : List Char) : Option Int :=
  pyInt (((lastComponent m).drop 1).take 4)

/-- Configuration of `FivekCrawler.__init__` (lines 43-64).  Only the
fields that influence the embedded behaviour are kept; `saving_dir` is
the already-resolved directory string. -/
structure Crawler where
  expert_list : List Char
  max_workers : Nat
  saving_dir : List Char
  image_from : Nat
  image_to : Nat
deriving DecidableEq, Repr

/-- The constructor assertions at lines 59-61. -/
def Crawler.valid (c : Crawler) : Prop :=
  c.image_from < c.image_to ∧ c.image_to ≤ 5000

/-- Line 189: `total_images = (image_to - image_from) * len(expert_list)`. -/
def total_images (c : Crawler) : Nat :=
  (c.image_to - c.image_from) * c.expert_list.length

/-- Observable behaviour of the generator `_get_expert_images_url` when
driven to exhaustion: the relative paths it yields in order, and
whether driving it past the last yield raises `ValueError` (from
`int`).  A raise always happens after all recorded yields. -/
structure ExtractOut where
  yields : List (List Char)
  errored : Bool
deriving DecidableEq, Repr

/-- The loop body of `_get_expert_images_url` (lines 137-140): for each
regex match, parse the index (raising on failure, before the range
test), then yield the match when `image_from <= index <= image_to`. -/
def extractLoop (lo hi : Int) : List (List Char) → ExtractOut
  | [] => ⟨[], false⟩
  | m :: rest =>
    match parseUrlIndex m with
    | none => ⟨[], true⟩
    | some idx =>
      if lo ≤ idx ∧ idx ≤ hi then
        ⟨m :: (extractLoop lo hi rest).yields, (extractLoop lo hi rest).errored⟩
      else extractLoop lo hi rest

/-- `FivekCrawler._get_expert_images_url` (lines 123-140), as the full
sequence of yields of the generator over the fetched listing text. -/
def getExpertImagesUrl (c : Crawler) (text : List Char) : ExtractOut :=
  extractLoop (c.image_from : Int) (c.image_to : Int)
    (findMatches c.expert_list text)

/-- Outcome of one streaming GET attempt inside `download_image`:
normal completion, `Timeout`, or any other `HTTPError`/`RequestException`. -/
inductive AttemptOutcome where
  | success
  | timeout
  | otherError
deriving DecidableEq, Repr

/-- Result of one `download_image` invocation.  `ok` is the break after
a successful write (followed by the 0.7s politeness sleep); the two
failure constructors are the branches that append `[url, image_path]`
to `self.incomplete_images`.  `attempts` counts GET attempts issued. -/
inductive DlRes where
  | ok (attempts : Nat)
  | timeoutFail (attempts : Nat)
  | errorFail (attempts : Nat)
deriving DecidableEq, Repr

/-- The `while retry < 3` loop of `download_image` (lines 153-179),
with the attempt outcomes supplied by `f` (attempt number = value of
`retry` when the attempt is issued, since only timeouts re-enter the
loop).  `fuel` is structural and instantiated with 3; the `fuel = 0`
arm is unreachable from `downloadImage`. -/
def dlGo (f : Nat → AttemptOutcome) : Nat → Nat → DlRes
  | 0, retry => .ok retry
  | fuel + 1, retry =>
    if retry < 3 then
      match f retry with
      | .success => .ok (retry + 1)
      | .timeout =>
        if retry + 1 = 3 then .timeoutFail 3 else dlGo f fuel (retry + 1)
      | .otherError => .errorFail (retry + 1)
    else .ok retry

/-- `FivekCrawler.download_image` for one invocation whose attempt
outcomes are given by `f`. -/
def downloadImage (f : Nat → AttemptOutcome) : DlRes :=
  dlGo f 3 0

/-- Whether the invocation appends its task to `self.incomplete_images`
(third-timeout branch at line 171, or the non-timeout error branch at
line 178). -/
def dlAppended (f : Nat → AttemptOutcome) : Bool :=
  match downloadImage f with
  | .ok _ => false
  | .timeoutFail _ => true
  | .errorFail _ => true

/-- A download task `(remote_path, local_path)`, as submitted to the
pool at lines 196 and 210. -/
abbrev DlTask := List Char × List Char

/-- One pool phase over `tasks`: every submitted task runs its
`download_image` invocation to completion (the executor context
manager joins all workers on exit), and the tasks whose invocation
appended are collected, in submission order, as the failures this
phase adds to the shared list. -/
def runPhase (beh : DlTask → Nat → AttemptOutcome) (tasks : List DlTask) :
    List DlTask :=
  tasks.filter (fun t => dlAppended (beh t))

/-- Result of the bulk submission loop (lines 194-199).  `submitted`
is the list of tasks handed to `saver.submit`; `crashedAttr` marks the
`AttributeError` from `url.group()` at line 196; `crashedValue` marks
a `ValueError` raised by the generator's very first pull (a bad index
slice before any yield). -/
structure BulkResult where
  submitted : List DlTask
  crashedAttr : Bool
  crashedValue : Bool
deriving DecidableEq, Repr

set_option linter.unusedVariables false in
/-- Lines 194-199, faithfully.  The loop pulls the generator once: if
the first pull raises `ValueError` (the generator erred before any
yield), that exception propagates.  If it returns a yield — a `str`
(line 140) — the body computes `image_path = url.replace(...)` (line
195, a valid `str` operation) and then evaluates `url.group()` (line
196), which raises `AttributeError` on a `str` before `saver.submit`
is called: the run dies with zero submissions.  Only a generator that
finishes without any yield lets the loop exit normally, again with
zero submissions; the `i % total_images == 0` break and the
submissions themselves are unreachable. -/
def bulkPhase (c : Crawler) (eo : ExtractOut) : BulkResult :=
  match eo.yields with
  | [] => ⟨[], false, eo.errored⟩
  | _ :: _ => ⟨[], true, false⟩

/-- Abstract outcome of the single listing GET at line 110: an
exception from `rq.get` (any `RequestException` or other exception), or
a response with a status code and body. -/
inductive HttpOutcome where
  | exn
  | resp (status : Nat) (body : List Char)
deriving DecidableEq, Repr

/-- How `_make_request` finishes: `exited` models the `exit()` call at
line 121; `returned r` is a normal return with value `r` (`none` when
an exception was caught and the function fell off the end). -/
inductive RequestResult where
  | exited
  | returned (r : Option (List Char))
deriving DecidableEq, Repr

/-- `FivekCrawler._make_request` (lines 93-121).  Both `except` arms
print the error class and return `None`; a non-200 status prints and
calls `exit()`; a 200 status returns the body text. -/
def makeRequest (o : HttpOutcome) : RequestResult :=
  match o with
  | .exn => .returned none
  | .resp st body => if st = 200 then .returned (some body) else .exited

/-- State of the cleanup loop at lines 203-214, at the top of one
`while remains:` test.  `phase` numbers the phases (bulk = 0, first
cleanup = 1, ...).  `remains` is the list about to be iterated;
`incomplete` is the current content of `self.incomplete_images`.
After the first iteration the two are the same Python object; the
transition keeps the fields equal from then on. -/
structure CleanState where
  phase : Nat
  remains : List DlTask
  incomplete : List DlTask
deriving DecidableEq, Repr

/-- One iteration of `while remains:`: run a fresh pool of the same
size over the snapshot `remains`, append the phase's failures to
`self.incomplete_images` (never cleared inside the loop), then execute
`remains = self.incomplete_images`, which aliases the two.  The stale
`future` appended at line 211 affects only the progress bar: the
executor context manager still joins every submitted worker. -/
def cleanupStep (beh : Nat → DlTask → Nat → AttemptOutcome)
    (s : CleanState) : CleanState :=
  let fails := runPhase (beh s.phase) s.remains
  ⟨s.phase + 1, s.incomplete ++ fails, s.incomplete ++ fails⟩

/-- The cleanup loop itself.  `fuel` bounds the number of iterations;
`none` means the loop did not terminate within `fuel` iterations.
On termination the result is the phase counter (1 + number of cleanup
iterations executed). -/
def cleanupLoop (beh : Nat → DlTask → Nat → AttemptOutcome) :
    Nat → CleanState → Option Nat
  | 0, _ => none
  | fuel + 1, s =>
    if s.remains = [] then some s.phase
    else cleanupLoop beh fuel (cleanupStep beh s)

/-- Line 81: `Path(f"{saving_dir}/fivek_expert/tiff16_{expert_id}")`. -/
def expertFolderPath (savingDir : List Char) (e : Char) : List Char :=
  savingDir ++ "/fivek_expert/tiff16_".toList ++ [e]

/-- Return value of `_create_expert_folder` together with whether the
`FileExistsError` branch (the notice at line 85) was taken. -/
structure MkdirResult where
  path : List Char
  alreadyExisted : Bool
deriving DecidableEq, Repr

/-- `FivekCrawler._create_expert_folder` (lines 66-87) over a
filesystem modelled as the list of existing directories.
`mkdir(parents=True)` creates the leaf and its missing parents and
raises `FileExistsError` only when the leaf exists, which the source
catches and logs; other filesystem failures (e.g. a parent existing as
a regular file) are outside the model. -/
def createExpertFolder (fs : List (List Char)) (e : Char)
    (savingDir : List Char) : MkdirResult × List (List Char) :=
  let p := expertFolderPath savingDir e
  if fs.contains p then (⟨p, true⟩, fs)
  else (⟨p, false⟩, p :: (savingDir ++ "/fivek_expert".toList) :: fs)

/-- Overall outcome of `FivekCrawler.main` (lines 181-214).
`exitNon200` is the `exit()` inside `_make_request`;
`crashNoHtml` is the `TypeError` from `re.finditer(pattern, None)`
raised at the first pull of the generator, after the expert folders
were already created (their paths are recorded);
`crashParse` is a `ValueError` from the generator's first pull;
`crashAttr` is the `AttributeError` from `url.group()` on the `str`
yielded at line 140, raised at the first iteration of the bulk loop
(line 196) before any submission;
`outOfFuel` means the cleanup loop ran past the given fuel. -/
inductive RunOutcome where
  | exitNon200
  | crashNoHtml (folders : List (List Char))
  | crashParse
  | crashAttr
  | outOfFuel
  | finished (submitted : List DlTask) (phasesDone : Nat)
deriving DecidableEq, Repr

/-- `FivekCrawler.main`: fetch the listing, create the expert folders,
run the bulk submission loop (which crashes at its first URL, if any),
run all submitted downloads, then drain `self.incomplete_images` into
`remains` (lines 203-204: the one and only reset of the shared list)
and enter the cleanup loop.  Because `bulkPhase` never submits, the
cleanup loop is only ever entered with an empty failure list. -/
def mainRun (c : Crawler) (ho : HttpOutcome)
    (beh : Nat → DlTask → Nat → AttemptOutcome) (fuel : Nat) : RunOutcome :=
  match makeRequest ho with
  | .exited => .exitNon200
  | .returned none =>
    .crashNoHtml (c.expert_list.map (expertFolderPath c.saving_dir))
  | .returned (some body) =>
    let eo := getExpertImagesUrl c body
    let b := bulkPhase c eo
    if b.crashedAttr then .crashAttr
    else if b.crashedValue then .crashParse
    else
      let f1 := runPhase (beh 0) b.submitted
      match cleanupLoop beh fuel ⟨1, f1, []⟩ with
      | none => .outOfFuel
      | some ph => .finished b.submitted ph

/-! ## Concrete scenarios used by the theorems -/

/-- A single task as built by the bulk loop for expert `a`, index 289. -/
def t0 : DlTask :=
  ("img/tiff16_a/a0289.tif".toList,
   "/save/fivek_expert/tiff16_a/a0289.tif".toList)

/-- Transport behaviour: every attempt succeeds immediately. -/
def behSucc : Nat → DlTask → Nat → AttemptOutcome :=
  fun _ _ _ => .success

/-- Crawler with experts `a` and `b`, full index range. -/
def crawler3 : Crawler := ⟨['a', 'b'], 2, "/save".toList, 0, 5000⟩

/-- Crawler with one expert and range `[289, 290]`, so the precomputed
total is `(290 - 289) * 1 = 1`. -/
def crawler1 : Crawler := ⟨['a'], 5, "/save".toList, 289, 290⟩

/-- Listing text with two entries whose indices 289 and 290 are both
inside `[289, 290]`. -/
def text1 : List Char :=
  "img/tiff16_a/a0289.tif img/tiff16_a/a0290.tif".toList

/-! ## Helper lemmas -/

/-- Successful include of a pattern at the head determines the prefix. -/
theorem startsWith_take : ∀ (p s : List Char),
    startsWith s p = true → s.take p.length = p := by
  intro p
  induction p with
  | nil => intro s _; simp
  | cons x xs ih =>
    intro s h
    cases s with
    | nil => simp [startsWith] at h
    | cons c cs =>
      simp [startsWith] at h
      obtain ⟨h1, h2⟩ := h
      simp [List.take_succ_cons, ih cs h2, h1]

/-- Shape of a regex match: it is `img/tiff16_` followed by an expert
character from the class, a slash, and a tail. -/
theorem matchLenAt_shape {E s : List Char} {n : Nat}
    (h : matchLenAt E s = some n) :
    ∃ e tail, E.contains e = true ∧ s.take n = patHead ++ e :: '/' :: tail := by
  unfold matchLenAt at h
  by_cases hsw : startsWith s patHead
  case neg => simp [hsw] at h
  rw [if_pos hsw] at h
  cases hd : s.drop 11 with
  | nil => rw [hd] at h; exact absurd h (by simp)
  | cons e t1 =>
    cases t1 with
    | nil => rw [hd] at h; exact absurd h (by simp)
    | cons sl rest =>
      rw [hd] at h
      simp only [] at h
      by_cases hg : sl = '/' ∧ E.contains e
      case neg => rw [if_neg hg] at h; exact absurd h (by simp)
      rw [if_pos hg] at h
      cases hbk : bestK (s.drop 13) with
      | none => rw [hbk] at h; exact absurd h (by simp)
      | some k =>
        rw [hbk] at h
        have hn : n = 13 + (k + 4) := by
          simpa using h.symm
        have h11 : s.take 11 = patHead := by
          have := startsWith_take patHead s hsw
          simpa using this
        refine ⟨e, (s.drop 13).take (k + 4), hg.2, ?_⟩
        rw [hn, List.take_add]
        have h13 : s.take 13 = patHead ++ [e, sl] := by
          rw [show (13 : Nat) = 11 + 2 from rfl, List.take_add, h11, hd]
          rfl
        rw [h13, hg.1]
        simp

/-- Every match produced by the scanner has the regex shape. -/
theorem scanMatches_shape {E : List Char} :
    ∀ (fuel : Nat) (s m : List Char), m ∈ scanMatches E fuel s →
      ∃ e tail, E.contains e = true ∧ m = patHead ++ e :: '/' :: tail := by
  intro fuel
  induction fuel with
  | zero => intro s m hm; simp [scanMatches] at hm
  | succ n ih =>
    intro s m hm
    cases hml : matchLenAt E s with
    | some k =>
      simp only [scanMatches, hml, List.mem_cons] at hm
      rcases hm with h1 | h2
      · obtain ⟨e, tail, he, ht⟩ := matchLenAt_shape hml
        exact ⟨e, tail, he, h1 ▸ ht⟩
      · exact ih _ _ h2
    | none =>
      simp only [scanMatches, hml] at hm
      cases s with
      | nil => simp at hm
      | cons c tl => exact ih _ _ hm

/-- The yields of the generator loop are a sublist (hence in order) of
the underlying match list. -/
theorem extractLoop_sublist (lo hi : Int) :
    ∀ ms : List (List Char), ((extractLoop lo hi ms).yields).Sublist ms := by
  intro ms
  induction ms with
  | nil => simp [extractLoop]
  | cons m rest ih =>
    cases hp : parseUrlIndex m with
    | none => simp [extractLoop, hp, List.nil_sublist]
    | some idx =>
      by_cases hr : lo ≤ idx ∧ idx ≤ hi
      · simpa [extractLoop, hp, hr] using List.Sublist.cons₂ m ih
      · simpa [extractLoop, hp, hr] using List.Sublist.cons m ih

/-- Every yielded match parses to an index within the inclusive range. -/
theorem extractLoop_mem (lo hi : Int) :
    ∀ (ms : List (List Char)) (m : List Char),
      m ∈ (extractLoop lo hi ms).yields →
      ∃ i, parseUrlIndex m = some i ∧ lo ≤ i ∧ i ≤ hi := by
  intro ms
  induction ms with
  | nil => intro m hm; simp [extractLoop] at hm
  | cons x rest ih =>
    intro m hm
    cases hp : parseUrlIndex x with
    | none => simp only [extractLoop, hp] at hm; simp at hm
    | some idx =>
      by_cases hr : lo ≤ idx ∧ idx ≤ hi
      · simp only [extractLoop, hp, if_pos hr, List.mem_cons] at hm
        rcases hm with h1 | h2
        · exact ⟨idx, h1 ▸ hp, hr⟩
        · exact ih m h2
      · simp only [extractLoop, hp, if_neg hr] at hm
        exact ih m hm

/-- When the generator is driven to exhaustion without raising, every
underlying match parses. -/
theorem extractLoop_no_error (lo hi : Int) :
    ∀ ms : List (List Char), (extractLoop lo hi ms).errored = false →
      ∀ m ∈ ms, (parseUrlIndex m).isSome := by
  intro ms
  induction ms with
  | nil => intro _ m hm; simp at hm
  | cons x rest ih =>
    intro he m hm
    cases hp : parseUrlIndex x with
    | none => simp only [extractLoop, hp] at he; simp at he
    | some idx =>
      have hre : (extractLoop lo hi rest).errored = false := by
        by_cases hr : lo ≤ idx ∧ idx ≤ hi
        · simp only [extractLoop, hp, if_pos hr] at he; exact he
        · simp only [extractLoop, hp, if_neg hr] at he; exact he
      rcases List.mem_cons.mp hm with h1 | h2
      · rw [h1, hp]; rfl
      · exact ih hre m h2

/-! ## Claim theorems -/

/-- Claim C8 (confirmed): directory preparation is idempotent.  For
every filesystem, expert identifier and base path, two successive calls
of `_create_expert_folder` both succeed and return the same path
`base/fivek_expert/tiff16_<expert>`; the second call takes the caught
`FileExistsError` branch (the logged notice) and leaves the filesystem
unchanged. -/
theorem c8_create_folder_idempotent :
    ∀ (fs : List (List Char)) (e : Char) (d : List Char),
      (createExpertFolder fs e d).1.path = expertFolderPath d e
      ∧ (createExpertFolder (createExpertFolder fs e d).2 e d).1.path
          = expertFolderPath d e
      ∧ (createExpertFolder (createExpertFolder fs e d).2 e d).1.alreadyExisted
          = true
      ∧ (createExpertFolder (createExpertFolder fs e d).2 e d).2
          = (createExpertFolder fs e d).2 := by
  intro fs e d
  by_cases h : expertFolderPath d e ∈ fs
  · simp [createExpertFolder, h]
  · simp [createExpertFolder, h]

/-- Claim C5 (confirmed): in one `download_image` invocation a timeout
is retried immediately until the attempt counter reaches 3, at which
point the invocation appends its `(remote_path, local_path)` pair to
the failure list and stops (exactly 3 attempts); a non-timeout
request-level error on attempt `k` appends immediately and stops after
`k + 1` attempts, without consuming the remaining ones. -/
theorem c5_download_retry : ∀ f : Nat → AttemptOutcome,
    ((∀ n, n < 3 → f n = .timeout) →
        downloadImage f = .timeoutFail 3 ∧ dlAppended f = true)
    ∧ (∀ k, k < 3 → (∀ n, n < k → f n = .timeout) → f k = .otherError →
        downloadImage f = .errorFail (k + 1) ∧ dlAppended f = true)
    ∧ (∀ (beh : DlTask → Nat → AttemptOutcome) (t : DlTask),
        dlAppended (beh t) = true → runPhase beh [t] = [t]) := by
  refine fun f => ⟨?_, ?_, ?_⟩
  · intro h
    have h0 := h 0 (by omega)
    have h1 := h 1 (by omega)
    have h2 := h 2 (by omega)
    refine ⟨?_, ?_⟩ <;>
      simp [downloadImage, dlAppended, dlGo, h0, h1, h2]
  · intro k hk hpre hke
    interval_cases k
    · refine ⟨?_, ?_⟩ <;> simp [downloadImage, dlAppended, dlGo, hke]
    · have h0 := hpre 0 (by omega)
      refine ⟨?_, ?_⟩ <;> simp [downloadImage, dlAppended, dlGo, h0, hke]
    · have h0 := hpre 0 (by omega)
      have h1 := hpre 1 (by omega)
      refine ⟨?_, ?_⟩ <;> simp [downloadImage, dlAppended, dlGo, h0, h1, hke]
  · intro beh t h
    simp [runPhase, h]

/-- Witness for C5: an always-timeout transport fails after exactly 3
attempts; a first-attempt non-timeout error fails after 1 attempt; the
task pair itself is what the phase records. -/
theorem c5_download_retry_w :
    downloadImage (fun _ => .timeout) = .timeoutFail 3
    ∧ downloadImage (fun _ => .otherError) = .errorFail 1
    ∧ runPhase (fun _ _ => AttemptOutcome.timeout) [t0] = [t0] :=
  ⟨((c5_download_retry (fun _ => .timeout)).1 (fun _ _ => rfl)).1,
   ((c5_download_retry (fun _ => .otherError)).2.1 0 (by omega)
      (fun n h => absurd h (Nat.not_lt_zero n)) rfl).1,
   (c5_download_retry (fun _ => .timeout)).2.2
      (fun _ _ => AttemptOutcome.timeout) t0 (by decide)⟩

/-- Claim C3 counterexample: on a network-level failure the listing
fetch does not abort the run.  `_make_request` catches the exception,
prints it and returns `None` (it does not `exit()`), and `main` then
continues: it creates every expert directory before dying of an
unrelated `TypeError` when the extractor first iterates over the
`None` body. -/
theorem c3_network_failure_not_abort :
    makeRequest .exn = .returned none
    ∧ makeRequest .exn ≠ .exited
    ∧ mainRun crawler3 .exn behSucc 3
        = .crashNoHtml ["/save/fivek_expert/tiff16_a".toList,
                        "/save/fivek_expert/tiff16_b".toList] := by
  decide

/-- Claim C3 (amended): on a 200 response the fetch returns the body
text; on any non-200 status it reports and exits the process; on a
network-level failure it reports the error and returns `None`, and the
run then creates all expert directories before crashing with a
`TypeError` at the first iteration of the extractor. -/
theorem c3_make_request_behaviour :
    (∀ body : List Char, makeRequest (.resp 200 body) = .returned (some body))
    ∧ (∀ (st : Nat) (body : List Char), st ≠ 200 →
        makeRequest (.resp st body) = .exited)
    ∧ makeRequest .exn = .returned none
    ∧ (∀ (c : Crawler) (beh : Nat → DlTask → Nat → AttemptOutcome)
        (fuel : Nat),
        mainRun c .exn beh fuel
          = .crashNoHtml (c.expert_list.map (expertFolderPath c.saving_dir))) := by
  refine ⟨fun body => by simp [makeRequest], ?_, rfl, fun c beh fuel => rfl⟩
  intro st body h
  simp [makeRequest, h]

/-- Witness for the amended C3 at concrete inputs. -/
theorem c3_make_request_behaviour_w :
    makeRequest (.resp 200 "listing".toList) = .returned (some "listing".toList)
    ∧ ((404 : Nat) ≠ 200 ∧ makeRequest (.resp 404 "x".toList) = .exited)
    ∧ mainRun crawler3 .exn behSucc 1
        = .crashNoHtml (crawler3.expert_list.map
            (expertFolderPath crawler3.saving_dir)) :=
  ⟨c3_make_request_behaviour.1 "listing".toList,
   ⟨by decide, c3_make_request_behaviour.2.1 404 "x".toList (by decide)⟩,
   c3_make_request_behaviour.2.2.2 crawler3 behSucc 1⟩

/-- Crawler with one expert and range `[289, 291]`, total `2`. -/
def crawler4 : Crawler := ⟨['a'], 5, "/save".toList, 289, 291⟩

/-- Listing text with one entry per in-range index of `crawler4`. -/
def text4 : List Char :=
  "img/tiff16_a/a0289.tif img/tiff16_a/a0290.tif img/tiff16_a/a0291.tif".toList

/-- Crawler matching the `__main__` block of the source but with the
range `[289, 300]` of the end-to-end scenario. -/
def crawler6 : Crawler := ⟨['a'], 5, "/save".toList, 289, 300⟩

/-- Listing text of the end-to-end scenario: an in-range entry `a0289`
and an out-of-range entry `a0500`. -/
def text6 : List Char :=
  "img/tiff16_a/a0289.tif img/tiff16_a/a0500.tif".toList

/-- Crawler with the full index range, used for the extractor totality
scenarios. -/
def crawler9 : Crawler := ⟨['a'], 5, "/save".toList, 0, 5000⟩

/-- Listing entry whose filename characters 1-4 are `+289`: not all
decimal digits, yet accepted by Python's `int`. -/
def textPlus : List Char := "img/tiff16_a/a+289.tif".toList

/-- Listing entry whose filename characters 1-4 are `bcde`: `int`
raises `ValueError` on them. -/
def textBad : List Char := "img/tiff16_a/abcde.tif".toList

/-- Claim C6 (confirmed): every path yielded by the extractor parses to
an index inside the inclusive configured range and starts with
`img/tiff16_` followed by an expert character from the configured set
and a slash; the yields are a sublist of (hence in the order of) the
regex matches of the text; and in the end-to-end scenario with range
`[289, 300]`, `img/tiff16_a/a0289.tif` is selected while
`img/tiff16_a/a0500.tif` is not. -/
theorem c6_extractor_range_and_order :
    (∀ (c : Crawler) (text m : List Char),
        m ∈ (getExpertImagesUrl c text).yields →
        (∃ i, parseUrlIndex m = some i
            ∧ (c.image_from : Int) ≤ i ∧ i ≤ (c.image_to : Int))
        ∧ ∃ e tail, c.expert_list.contains e = true
            ∧ m = patHead ++ e :: '/' :: tail)
    ∧ (∀ (c : Crawler) (text : List Char),
        ((getExpertImagesUrl c text).yields).Sublist
          (findMatches c.expert_list text))
    ∧ (getExpertImagesUrl crawler6 text6).yields
        = ["img/tiff16_a/a0289.tif".toList] := by
  refine ⟨?_, ?_, by decide⟩
  · intro c text m hm
    refine ⟨extractLoop_mem _ _ _ m hm, ?_⟩
    have hmm : m ∈ findMatches c.expert_list text :=
      (extractLoop_sublist _ _ _).subset hm
    exact scanMatches_shape text.length text m hmm
  · intro c text
    exact extractLoop_sublist _ _ _

/-- Witness for C6: the selected path of the end-to-end scenario
satisfies the range and shape properties. -/
theorem c6_extractor_range_and_order_w :
    "img/tiff16_a/a0289.tif".toList ∈ (getExpertImagesUrl crawler6 text6).yields
    ∧ ((∃ i, parseUrlIndex "img/tiff16_a/a0289.tif".toList = some i
          ∧ (crawler6.image_from : Int) ≤ i ∧ i ≤ (crawler6.image_to : Int))
       ∧ ∃ e tail, crawler6.expert_list.contains e = true
          ∧ "img/tiff16_a/a0289.tif".toList = patHead ++ e :: '/' :: tail) :=
  ⟨by decide,
   c6_extractor_range_and_order.1 crawler6 text6
     "img/tiff16_a/a0289.tif".toList (by decide)⟩

/-- Claim C9 counterexample: the extractor is total (raises no parse
error) on a listing whose single match's filename does not have
decimal digits at character positions 1 through 4 — the slice is
`+289`, which Python's `int` accepts because of the sign — so totality
does not hold *only* on all-digit listings as claimed. -/
theorem c9_total_without_digits :
    (getExpertImagesUrl crawler9 textPlus).errored = false
    ∧ findMatches ['a'] textPlus = [textPlus]
    ∧ (((lastComponent textPlus).drop 1).take 4).all Char.isDigit = false
    ∧ parseUrlIndex textPlus = some 289 := by
  decide

/-- Claim C9 (amended): the extractor is total exactly on listings in
which every regex match's index slice (filename characters 1-4) parses
under Python's `int` — decimal digits possibly with a sign, embedded
single underscores, or surrounding whitespace; and on an input with a
non-parsing slice, iterating the extractor raises a `ValueError`
instead of skipping or yielding the entry (here: yields nothing and
errors). -/
theorem c9_totality_via_int :
    (∀ (lo hi : Int) (ms : List (List Char)),
        (extractLoop lo hi ms).errored = false →
        ∀ m ∈ ms, (parseUrlIndex m).isSome)
    ∧ ((getExpertImagesUrl crawler9 textBad).errored = true
       ∧ (getExpertImagesUrl crawler9 textBad).yields = []) := by
  exact ⟨extractLoop_no_error, by decide⟩

/-- Witness for the amended C9: a listing on which the extractor is
total, with its match's slice parsed by the `int` model. -/
theorem c9_totality_via_int_w :
    (extractLoop (crawler9.image_from : Int) (crawler9.image_to : Int)
        (findMatches crawler9.expert_list textPlus)).errored = false
    ∧ (parseUrlIndex textPlus).isSome :=
  ⟨by decide,
   c9_totality_via_int.1 (crawler9.image_from : Int) (crawler9.image_to : Int)
     (findMatches crawler9.expert_list textPlus) (by decide) textPlus
     (by decide)⟩

/-- The bulk phase never submits a task: an empty yield sequence gives
an empty loop, and a nonempty one dies of the `AttributeError` at line
196 before the first `saver.submit`. -/
theorem bulk_submitted_nil (c : Crawler) (eo : ExtractOut) :
    (bulkPhase c eo).submitted = [] := by
  obtain ⟨ys, er⟩ := eo
  cases ys <;> rfl

/-- The cleanup loop entered with an empty `remains` terminates
immediately at its `while remains:` test, leaving the phase counter
unchanged. -/
theorem cleanupLoop_of_empty (beh : Nat → DlTask → Nat → AttemptOutcome)
    (fuel : Nat) (s : CleanState) (hs : s.remains = []) (hf : 1 ≤ fuel) :
    cleanupLoop beh fuel s = some s.phase := by
  cases fuel with
  | zero => omega
  | succ n => simp [cleanupLoop, hs]

/-- Claim C1 (code_bug evidence): a run whose listing yields two
matching URLs submits none of them and does not wait on any pool work:
line 196 applies `.group()` to the `str` yielded at line 140, so the
first iteration of the bulk loop raises `AttributeError` before
`saver.submit` runs, and the whole run aborts with an empty submission
list. -/
theorem c1_bulk_crashes_attr :
    (getExpertImagesUrl crawler1 text1).yields.length = 2
    ∧ (bulkPhase crawler1 (getExpertImagesUrl crawler1 text1)).submitted = []
    ∧ (bulkPhase crawler1 (getExpertImagesUrl crawler1 text1)).crashedAttr = true
    ∧ mainRun crawler1 (.resp 200 text1) behSucc 3 = .crashAttr := by
  decide

/-- Claim C2 (confirmed, vacuously): no execution ends the bulk phase
with a non-empty Failure List, so the claim's universally quantified
antecedent is unreachable and the claim holds of the program.  The
conjuncts prove the underlying facts: the bulk phase never submits a
task (the `AttributeError` at line 196 fires on the first enumerated
URL); a phase over no tasks records no failures; the cleanup loop,
whenever entered with an empty `remains`, terminates immediately at
its `while remains:` test — exactly the claim's termination condition;
and the two reachable 200-status outcomes are an immediate `finished`
after zero cleanup iterations (yield-less listing) or the
`AttributeError` crash (some yield). -/
theorem c2_no_failures_loop_terminates :
    (∀ (c : Crawler) (eo : ExtractOut), (bulkPhase c eo).submitted = [])
    ∧ (∀ beh : DlTask → Nat → AttemptOutcome, runPhase beh [] = [])
    ∧ (∀ (beh : Nat → DlTask → Nat → AttemptOutcome) (fuel : Nat)
        (s : CleanState), s.remains = [] → 1 ≤ fuel →
        cleanupLoop beh fuel s = some s.phase)
    ∧ (∀ (c : Crawler) (text : List Char)
        (beh : Nat → DlTask → Nat → AttemptOutcome) (fuel : Nat), 1 ≤ fuel →
        (getExpertImagesUrl c text).yields = [] →
        (getExpertImagesUrl c text).errored = false →
        mainRun c (.resp 200 text) beh fuel = .finished [] 1)
    ∧ (∀ (c : Crawler) (text : List Char)
        (beh : Nat → DlTask → Nat → AttemptOutcome) (fuel : Nat),
        (getExpertImagesUrl c text).yields ≠ [] →
        mainRun c (.resp 200 text) beh fuel = .crashAttr) := by
  refine ⟨fun c eo => bulk_submitted_nil c eo, fun beh => rfl,
    fun beh fuel s hs hf => cleanupLoop_of_empty beh fuel s hs hf, ?_, ?_⟩
  · intro c text beh fuel hf hy he
    have hb : bulkPhase c (getExpertImagesUrl c text) = ⟨[], false, false⟩ := by
      simp [bulkPhase, hy, he]
    simp [mainRun, makeRequest, hb, runPhase,
      cleanupLoop_of_empty beh fuel ⟨1, [], []⟩ rfl hf]
  · intro c text beh fuel hy
    obtain ⟨y, ys, hys⟩ :
        ∃ y ys, (getExpertImagesUrl c text).yields = y :: ys := by
      cases h : (getExpertImagesUrl c text).yields with
      | nil => exact absurd h hy
      | cons y ys => exact ⟨y, ys, rfl⟩
    have hb : bulkPhase c (getExpertImagesUrl c text) = ⟨[], true, false⟩ := by
      simp [bulkPhase, hys]
    simp [mainRun, makeRequest, hb]

/-- Witness for C2: the cleanup loop over the empty list terminates at
phase 1; a yield-less listing finishes with zero submissions; a
yielding listing crashes at the first URL. -/
theorem c2_no_failures_loop_terminates_w :
    cleanupLoop behSucc 1 ⟨1, [], []⟩ = some 1
    ∧ mainRun crawler3 (.resp 200 "plain listing".toList) behSucc 1
        = .finished [] 1
    ∧ mainRun crawler1 (.resp 200 text1) behSucc 1 = .crashAttr :=
  ⟨c2_no_failures_loop_terminates.2.2.1 behSucc 1 ⟨1, [], []⟩ rfl (by omega),
   c2_no_failures_loop_terminates.2.2.2.1 crawler3 "plain listing".toList
     behSucc 1 (by omega) (by decide) (by decide),
   c2_no_failures_loop_terminates.2.2.2.2 crawler1 text1 behSucc 1 (by decide)⟩

/-- Claim C4 (code_bug evidence): under the claim's hypotheses — one
expert, range `[289, 291]` (precomputed total 2) and a listing with an
entry for every in-range index — the extractor yields three URLs but
the program submits zero tasks: the first loop iteration raises
`AttributeError` at line 196, so the initially submitted count is 0,
not `(to - from) * |expert_list| = 2`. -/
theorem c4_zero_submitted :
    total_images crawler4 = 2
    ∧ (getExpertImagesUrl crawler4 text4).yields.length = 3
    ∧ (bulkPhase crawler4 (getExpertImagesUrl crawler4 text4)).submitted.length = 0
    ∧ mainRun crawler4 (.resp 200 text4) behSucc 3 = .crashAttr := by
  decide

/-- Claim C7 (confirmed, vacuously): no Download Task is ever attempted
in any phase — the bulk loop crashes at its first URL before any
submission, so every phase's task list and failure list are empty, and
a task whose every attempt times out never exists in an execution.
The conjuncts prove: every run's bulk phase records no failures
whatever the transport does; a single submission of a failing task
would append it exactly once; and the cleanup loop over the
always-empty list performs zero iterations early, so no following
phase exists either. -/
theorem c7_vacuously_satisfied :
    (∀ (c : Crawler) (eo : ExtractOut)
        (beh : Nat → DlTask → Nat → AttemptOutcome),
        runPhase (beh 0) ((bulkPhase c eo).submitted) = [])
    ∧ (∀ (beh : DlTask → Nat → AttemptOutcome) (t : DlTask),
        dlAppended (beh t) = true → (runPhase beh [t]).count t = 1)
    ∧ (∀ (beh : Nat → DlTask → Nat → AttemptOutcome) (fuel : Nat), 1 ≤ fuel →
        cleanupLoop beh fuel ⟨1, [], []⟩ = some 1) := by
  refine ⟨?_, ?_, ?_⟩
  · intro c eo beh
    rw [bulk_submitted_nil]
    rfl
  · intro beh t h
    simp [runPhase, h]
  · intro beh fuel hf
    exact cleanupLoop_of_empty beh fuel ⟨1, [], []⟩ rfl hf

/-- Witness for C7: a single all-timeout submission would be recorded
exactly once, and the reachable cleanup loop does zero iterations. -/
theorem c7_vacuously_satisfied_w :
    (runPhase (fun _ _ => AttemptOutcome.timeout) [t0]).count t0 = 1
    ∧ cleanupLoop behSucc 1 ⟨1, [], []⟩ = some 1 :=
  ⟨c7_vacuously_satisfied.2.1 (fun _ _ => AttemptOutcome.timeout) t0 (by decide),
   c7_vacuously_satisfied.2.2 behSucc 1 (by omega)⟩

/-- Claim C10 counterexample: the submission loop does not stop once
the precomputed total of URLs has been enumerated and does not drop
further matches silently.  With total 1 and two extracted URLs the
claim predicts one submitted task and one silent drop; the program
instead raises `AttributeError` at the very first URL (line 196) and
submits nothing. -/
theorem c10_no_cap_no_silent_drop :
    total_images crawler1 = 1
    ∧ (getExpertImagesUrl crawler1 text1).yields.length = 2
    ∧ (bulkPhase crawler1 (getExpertImagesUrl crawler1 text1)).submitted.length = 0
    ∧ (bulkPhase crawler1 (getExpertImagesUrl crawler1 text1)).crashedAttr
        = true := by
  decide

/-- Claim C10 (amended): the bulk phase submits at most
`(image_to - image_from) * len(expert_list)` tasks — in fact none.
Whenever the extractor yields anything, the loop raises
`AttributeError` at its first enumerated URL before any submission, so
every match is dropped by the crash and the `i % total_images == 0`
break is dead code; a yield-less listing also submits nothing. -/
theorem c10_nothing_submitted_cap :
    ∀ (c : Crawler) (eo : ExtractOut),
      (bulkPhase c eo).submitted = []
      ∧ (bulkPhase c eo).submitted.length ≤ total_images c := by
  intro c eo
  have h := bulk_submitted_nil c eo
  exact ⟨h, by rw [h]; exact Nat.zero_le _⟩
